import Mathlib

/-!
Shallow embedding of the Homeopathic_automation case-analysis core
(`ai_agent.py`): symptom extraction, knowledge-base search, narrative
composition, remedy/follow-up parsing, the `analyze_patient_case`
try/except pipeline, and the lazy singleton `get_homeopathic_agent`.

Python strings are modelled as `List Char`; Python's ASCII-relevant
`str.lower`/`str.upper`/`str.strip`/`split('\n')`/`in` are given
structurally recursive Lean counterparts below.
-/

set_option maxRecDepth 20000

/-- A Python `str`, modelled as its character list. -/
abbrev PyStr := List Char

/-- Coerce a Lean string literal to the `PyStr` model. -/
def lit (s : String) : PyStr := s.data

/-- `str.lower()` (ASCII; all lexicon and template text is ASCII). -/
def pyLower (s : PyStr) : PyStr := s.map Char.toLower

/-- `str.upper()` (ASCII). -/
def pyUpper (s : PyStr) : PyStr := s.map Char.toUpper

/-- Python whitespace stripped by `str.strip()`. -/
def pyIsSpace (c : Char) : Bool :=
  c = ' ' || c = '\t' || c = '\n' || c = '\r' || c = '\x0b' || c = '\x0c'

/-- `str.strip()`: drop leading and trailing whitespace. -/
def pyStrip (s : PyStr) : PyStr :=
  ((s.dropWhile pyIsSpace).reverse.dropWhile pyIsSpace).reverse

/-- `str.split(sep)` for a one-character separator: `"".split` gives `[""]`,
a trailing separator yields a trailing empty piece, matching Python. -/
def splitOnChar (sep : Char) : PyStr → List PyStr
  | [] => [[]]
  | c :: cs =>
    match splitOnChar sep cs with
    | [] => [[]]
    | grp :: rest => if c = sep then [] :: grp :: rest else (c :: grp) :: rest

/-- Python's `needle in hay` substring test. -/
def substrIn (needle : PyStr) : PyStr → Bool
  | [] => needle.isEmpty
  | c :: rest => needle.isPrefixOf (c :: rest) || substrIn needle rest

/-- `sep.join(xs)`. -/
def pyJoin (sep : PyStr) (xs : List PyStr) : PyStr := List.intercalate sep xs

/-- Python's `list(set(xs))`: the distinct elements of `xs`.  CPython's set
iteration order is unspecified, so the model fixes first-occurrence order;
claims about this value only concern its element set. -/
def pySet (xs : List PyStr) : List PyStr := xs.eraseDups

/-! ## `_extract_remedies` (ai_agent.py lines 180-200) -/

/-- The potency tokens checked against the upper-cased line. -/
def potencyTokens : List PyStr := [lit "30C", lit "200C", lit "1M", lit "10M", lit "LM"]

/-- The remedy names checked (case-sensitively) against the line. -/
def remedyNames : List PyStr :=
  [lit "Sulphur", lit "Nux", lit "Arsenicum", lit "Lycopodium", lit "Pulsatilla"]

/-- The fixed 3-item fallback used when no line matched. -/
def fallbackRemedies : List PyStr :=
  [lit "Constitutional remedy to be determined based on detailed analysis",
   lit "Acute remedy for immediate symptom relief",
   lit "Follow-up consultation recommended"]

/-- The per-line condition of `_extract_remedies`: some potency token occurs
in `line.upper()` and some remedy name occurs in `line`. -/
def lineMatchesRemedy (line : PyStr) : Bool :=
  (potencyTokens.any fun p => substrIn p (pyUpper line)) &&
  (remedyNames.any fun r => substrIn r line)

/-- `_extract_remedies`: collect `line.strip()` for every matching line of
`analysis_text.split('\n')`, fall back to the fixed 3-item list when none
matched, then truncate to 5. -/
def extract_remedies (analysisText : PyStr) : List PyStr :=
  let remedies := ((splitOnChar '\n' analysisText).filter lineMatchesRemedy).map pyStrip
  let remedies := if remedies.isEmpty then fallbackRemedies else remedies
  remedies.take 5

/-! ## `_extract_symptoms` (ai_agent.py lines 202-220) -/

/-- The fixed symptom lexicon. -/
def symptom_keywords : List PyStr :=
  [lit "headache", lit "pain", lit "fever", lit "cough", lit "nausea", lit "vomiting",
   lit "diarrhea", lit "constipation", lit "anxiety", lit "depression", lit "insomnia",
   lit "fatigue", lit "weakness", lit "dizziness", lit "rash", lit "inflammation"]

/-- `_extract_symptoms`: lowercase, split into lines, collect every lexicon
keyword contained in a line (the inner loop visits keywords in lexicon
order), then `list(set(...))`. -/
def extract_symptoms (patientSummary : PyStr) : List PyStr :=
  let lines := splitOnChar '\n' (pyLower patientSummary)
  let symptoms := lines.flatMap fun line => symptom_keywords.filter fun k => substrIn k line
  pySet symptoms

/-! ## `_search_knowledge_base` (ai_agent.py lines 222-243) -/

/-- `_search_knowledge_base`: sentinel for the empty symptom list; otherwise
builds `search_query` (computed but never used by the source) and returns a
fixed four-element template list whose first entry names the symptoms. -/
def search_knowledge_base (symptoms : List PyStr) : List PyStr :=
  if symptoms.isEmpty then [lit "No specific symptoms identified for search"]
  else
    let _search_query := pyJoin (lit " ") symptoms
    [lit "Found information related to: " ++ pyJoin (lit ", ") symptoms,
     lit "Based on homeopathic principles, consider constitutional remedies",
     lit "Symptom totality suggests looking at mental/emotional state",
     lit "Physical symptoms should be considered with modalities"]

/-! ## `_create_analysis_from_docs` (ai_agent.py lines 245-283) -/

/-- `_create_analysis_from_docs`: the f-string template joined with the
patient summary and the `"- "`-prefixed docs, then `.strip()`. -/
def create_analysis_from_docs (patientSummary : PyStr) (relevantDocs : List PyStr) : PyStr :=
  pyStrip <|
    lit "\nHOMEOPATHIC CASE ANALYSIS\n\nPATIENT SUMMARY:\n" ++ patientSummary ++
    lit "\n\nKNOWLEDGE BASE FINDINGS:\n" ++
    pyJoin (lit "\n") (relevantDocs.map fun d => lit "- " ++ d) ++
    lit "\n\nCONSTITUTIONAL ANALYSIS:\nBased on the symptom picture, this case suggests a need for constitutional treatment.\nThe totality of symptoms should guide remedy selection.\n\nRECOMMENDED APPROACH:\n1. Consider the mental/emotional state as primary\n2. Look at physical symptoms with their modalities\n3. Assess constitutional type and miasmatic background\n4. Select remedy based on similimum principle\n\nSUGGESTED REMEDIES:\n- Arsenicum Album 30C - for anxiety with restlessness\n- Nux Vomica 30C - for digestive issues with irritability\n- Pulsatilla 30C - for changeable symptoms and mild disposition\n- Sulphur 200C - for constitutional treatment\n- Lycopodium 30C - for digestive and confidence issues\n\nFOLLOW-UP RECOMMENDATIONS:\n- Monitor response for 2-4 weeks\n- Avoid antidoting substances\n- Keep symptom diary\n- Schedule follow-up consultation\n\nNote: This analysis is based on knowledge base search. For comprehensive treatment,\nconsult with a qualified homeopathic practitioner.\n        "

/-! ## `_extract_follow_up` (ai_agent.py lines 285-295) -/

/-- `_extract_follow_up`: a fixed checklist, the argument is ignored. -/
def extract_follow_up ( _analysisText : PyStr) : List PyStr :=
  [lit "Monitor patient response for 2-4 weeks",
   lit "Avoid antidoting substances (coffee, mint, camphor)",
   lit "Schedule follow-up consultation",
   lit "Keep symptom diary",
   lit "Report any new symptoms or changes"]

/-! ## `analyze_patient_case` (ai_agent.py lines 141-178) -/

/-- The dictionary returned by `analyze_patient_case`. -/
structure AnalysisReport where
  status : PyStr
  ai_analysis : PyStr
  recommended_remedies : List PyStr
  confidence_score : PyStr
  follow_up_recommendations : List PyStr
deriving DecidableEq, Repr

/-- The body of `analyze_patient_case`'s `try` block, with each step made
fallible (`Except` models a Python exception carrying `str(e)`), so that the
`except Exception` arm is reachable in the model. -/
def analysis_pipeline
    (extractStep : PyStr → Except PyStr (List PyStr))
    (searchStep : List PyStr → Except PyStr (List PyStr))
    (composeStep : PyStr → List PyStr → Except PyStr PyStr)
    (remediesStep : PyStr → Except PyStr (List PyStr))
    (followUpStep : PyStr → Except PyStr (List PyStr))
    (patientSummary : PyStr) : Except PyStr (PyStr × List PyStr × List PyStr) := do
  let symptoms ← extractStep patientSummary
  let relevantDocs ← searchStep symptoms
  let analysisText ← composeStep patientSummary relevantDocs
  let remedies ← remediesStep analysisText
  let followUps ← followUpStep analysisText
  pure (analysisText, remedies, followUps)

/-- `analyze_patient_case` over fallible steps: the `try` arm builds the
success dictionary, the `except Exception as e` arm builds the error
dictionary embedding `str(e)`. -/
def analyze_patient_case_with
    (extractStep : PyStr → Except PyStr (List PyStr))
    (searchStep : List PyStr → Except PyStr (List PyStr))
    (composeStep : PyStr → List PyStr → Except PyStr PyStr)
    (remediesStep : PyStr → Except PyStr (List PyStr))
    (followUpStep : PyStr → Except PyStr (List PyStr))
    (patientSummary : PyStr) : AnalysisReport :=
  match analysis_pipeline extractStep searchStep composeStep remediesStep followUpStep
      patientSummary with
  | .ok (analysisText, remedies, followUps) =>
    { status := lit "success"
      ai_analysis := analysisText
      recommended_remedies := remedies
      confidence_score := lit "75%"
      follow_up_recommendations := followUps }
  | .error e =>
    { status := lit "error"
      ai_analysis := lit "Error occurred during analysis: " ++ e
      recommended_remedies := []
      confidence_score := lit "0%"
      follow_up_recommendations := [] }

/-- `analyze_patient_case` with the actual (total) steps of the source. -/
def analyze_patient_case (patientSummary : PyStr) : AnalysisReport :=
  analyze_patient_case_with
    (fun s => .ok (extract_symptoms s))
    (fun sy => .ok (search_knowledge_base sy))
    (fun s d => .ok (create_analysis_from_docs s d))
    (fun t => .ok (extract_remedies t))
    (fun t => .ok (extract_follow_up t))
    patientSummary

/-! ## `get_homeopathic_agent` / the module-level singleton
    (ai_agent.py lines 410-453)

The module globals `_agent_instance` / `_agent_initialized`, together with a
counter of initialization passes (`initPasses` counts constructions of
`HomeopathicAIAgent`, one per pass) and a fresh-id supply so distinct
constructions are distinguishable.  `pdfFiles` models the corpus directory's
`*.pdf` listing, `loadSuccess` records the last return value of
`load_knowledge_base` (initially `true`, untouched until a load runs). -/
structure SingletonState where
  agentInstance : Option Nat
  agentInitialized : Bool
  initPasses : Nat
  nextId : Nat
  pdfFiles : List PyStr
  loadSuccess : Bool
deriving DecidableEq, Repr

/-- The module state before any call: both globals unset. -/
def initialSingletonState (pdfFiles : List PyStr) : SingletonState :=
  { agentInstance := none, agentInitialized := false, initPasses := 0,
    nextId := 1, pdfFiles := pdfFiles, loadSuccess := true }

/-- `setup_environment` (lines 337-369): directories are created, then the
missing entries of `required_env_vars` are collected; the source's
`required_env_vars` list is empty (the one candidate is commented out), so
no variable can be missing whatever `env` holds. -/
def required_env_vars : List PyStr := []

/-- `setup_environment`'s return value, given the environment lookup. -/
def setup_environment (env : PyStr → Bool) : Bool :=
  (required_env_vars.filter fun v => !env v).isEmpty

/-- `load_knowledge_base` (lines 116-139): `False` when the directory holds
no `*.pdf` files, otherwise the result of `knowledge_base.load()` —
`loadOk = false` models that call raising (caught, returning `False`). -/
def load_knowledge_base (loadOk : Bool) (pdfFiles : List PyStr) : Bool :=
  if pdfFiles.isEmpty then false else loadOk

/-- Where a caller of `get_homeopathic_agent` stands: at entry, suspended at
`await _agent_instance.load_knowledge_base()`, or returned with an
instance id (`failed` models the `raise` when `setup_environment` fails). -/
inductive CallerPC where
  | start
  | awaitingLoad
  | done (result : Nat)
  | failed
deriving DecidableEq, Repr

/-- One atomic segment of `get_homeopathic_agent` for one caller.  The guard
`_agent_instance is None or not _agent_initialized`, the environment check,
and the construction `_agent_instance = HomeopathicAIAgent()` run without a
suspension point; the segment ends at the `await` of `load_knowledge_base`
(per spec §5, index I/O is an expected await point).  Resuming runs
`load_knowledge_base`, sets `_agent_initialized = True` and returns the
current global `_agent_instance`. -/
def get_homeopathic_agent_step (env : PyStr → Bool) (loadOk : Bool)
    (s : SingletonState) (pc : CallerPC) : SingletonState × CallerPC :=
  match pc with
  | .start =>
    if s.agentInstance.isNone || !s.agentInitialized then
      if setup_environment env then
        ({ s with agentInstance := some s.nextId, nextId := s.nextId + 1,
                  initPasses := s.initPasses + 1 }, .awaitingLoad)
      else (s, .failed)
    else
      (s, .done (s.agentInstance.getD 0))
  | .awaitingLoad =>
    ({ s with agentInitialized := true,
              loadSuccess := load_knowledge_base loadOk s.pdfFiles },
     .done (s.agentInstance.getD 0))
  | pc => (s, pc)

/-- Two interleaved callers A and B: `false` schedules a segment of A,
`true` a segment of B. -/
def runSchedule (env : PyStr → Bool) (loadOk : Bool) :
    List Bool → SingletonState × CallerPC × CallerPC → SingletonState × CallerPC × CallerPC
  | [], st => st
  | false :: rest, (s, pcA, pcB) =>
    let (s', pcA') := get_homeopathic_agent_step env loadOk s pcA
    runSchedule env loadOk rest (s', pcA', pcB)
  | true :: rest, (s, pcA, pcB) =>
    let (s', pcB') := get_homeopathic_agent_step env loadOk s pcB
    runSchedule env loadOk rest (s', pcA, pcB')

/-! ## Spec-side retriever (§4.3), for comparison with
`_search_knowledge_base` -/

/-- Inner product of two embedding vectors. -/
def dotProduct (a b : List Int) : Int :=
  ((a.zip b).map fun p => p.1 * p.2).sum

/-- Modelled from the spec: §4.3's `retrieve(symptomSet)` — what
`_search_knowledge_base` is claimed to do but does not contain.  Joins the
symptom terms into one query string, embeds it with the indexing provider,
scores every indexed chunk by similarity, orders by descending score
(stable, so insertion order breaks exact ties) and returns the texts of the
top `K` chunks. -/
def retrieveSpec (embed : PyStr → List Int) (index : List (PyStr × List Int))
    (K : Nat) (symptoms : List PyStr) : List PyStr :=
  if symptoms.isEmpty then [lit "No specific symptoms identified for search"]
  else
    let q := embed (pyJoin (lit " ") symptoms)
    let scored := index.map fun c => (c.1, dotProduct q c.2)
    ((scored.insertionSort fun a b => b.2 ≤ a.2).take K).map Prod.fst

/-- A one-chunk toy index and its (constant-vector) embedder, used to compare
the source retriever with the spec-side one. -/
def toyIndex : List (PyStr × List Int) :=
  [(lit "Belladonna: throbbing headache, worse light and noise", [1])]

/-- Toy embedding provider for `toyIndex`. -/
def toyEmbed ( _q : PyStr) : List Int := [1]

/-! ## Theorems -/

/-- The stripped matching lines of a narrative, the list `_extract_remedies`
truncates. -/
def matchedRemedyLines (text : PyStr) : List PyStr :=
  ((splitOnChar '\n' text).filter lineMatchesRemedy).map pyStrip

/-- An 8-line narrative whose every line carries a potency token and a remedy
name, all lines distinct. -/
def eightRemedyLines : PyStr :=
  lit "Sulphur 30C a\nSulphur 30C b\nSulphur 30C c\nSulphur 30C d\nSulphur 30C e\nSulphur 30C f\nSulphur 30C g\nSulphur 30C h"

/-- C1 (counterexample): the claim's "contains no duplicate entries" fails on
the code.  For the patient text "- Sulphur 200C - for constitutional
treatment", the composed narrative repeats that line (once in the patient
summary, once in the template's suggested-remedies section), both copies
match, and `_extract_remedies` does not deduplicate: the report's
`recommended_remedies` has a duplicate entry. -/
theorem analyze_patient_case_duplicate_remedies :
    ¬ (analyze_patient_case
        (lit "- Sulphur 200C - for constitutional treatment")).recommended_remedies.Nodup := by
  decide

/-- C1 (amended): the remedy list has length at most 5; when some line
matches, it equals the first five stripped matching lines in narrative
order; it is duplicate-free whenever the stripped matching lines are
distinct (but not in general); and 8 matching lines yield length exactly 5. -/
theorem extract_remedies_cap_and_order (text : PyStr) :
    (extract_remedies text).length ≤ 5 ∧
    (matchedRemedyLines text ≠ [] →
      extract_remedies text = (matchedRemedyLines text).take 5) ∧
    ((matchedRemedyLines text).Nodup → (extract_remedies text).Nodup) ∧
    ((matchedRemedyLines text).length = 8 → (extract_remedies text).length = 5) := by
  have hrem : extract_remedies text =
      (if (matchedRemedyLines text).isEmpty then fallbackRemedies
       else matchedRemedyLines text).take 5 := rfl
  refine ⟨?_, ?_, ?_, ?_⟩
  · rw [hrem, List.length_take]
    exact min_le_left _ _
  · intro hne
    rw [hrem]
    cases hm : matchedRemedyLines text with
    | nil => exact absurd hm hne
    | cons a l => rfl
  · intro hnd
    rw [hrem]
    cases hm : matchedRemedyLines text with
    | nil => decide
    | cons a l =>
      rw [hm] at hnd
      exact List.Nodup.sublist (List.take_sublist 5 (a :: l)) hnd
  · intro h8
    rw [hrem]
    cases hm : matchedRemedyLines text with
    | nil => rw [hm] at h8; simp at h8
    | cons a l =>
      rw [hm] at h8
      show (List.take 5 (a :: l)).length = 5
      rw [List.length_take, h8]
      decide

/-- C1 (witness for the amended theorem): on the 8-distinct-line narrative
the list is exactly the first five lines, length 5, no duplicates. -/
theorem extract_remedies_cap_and_order_witness :
    extract_remedies eightRemedyLines = (matchedRemedyLines eightRemedyLines).take 5 ∧
    (extract_remedies eightRemedyLines).Nodup ∧
    (extract_remedies eightRemedyLines).length = 5 :=
  ⟨(extract_remedies_cap_and_order eightRemedyLines).2.1 (by decide),
   (extract_remedies_cap_and_order eightRemedyLines).2.2.1 (by decide),
   (extract_remedies_cap_and_order eightRemedyLines).2.2.2 (by decide)⟩

/-- C2: evaluating the naive check-then-act singleton on two concurrent first
callers.  Caller A constructs the agent and suspends at the
`await load_knowledge_base()`; caller B then runs its guard, still sees
`_agent_initialized == False`, and constructs a second agent: after both
complete, two initialization passes have run (`initPasses = 2`), against the
claimed exactly-one.  (Both callers do end up returning the same — second —
instance, since the return re-reads the global.) -/
theorem get_homeopathic_agent_double_init :
    runSchedule (fun _ => false) true [false, true, false, true]
        (initialSingletonState [lit "a.pdf"], .start, .start) =
      ({ agentInstance := some 2, agentInitialized := true, initPasses := 2, nextId := 3,
         pdfFiles := [lit "a.pdf"], loadSuccess := true }, .done 2, .done 2) := by
  decide

/-- C3: whenever the pipeline inside `analyze_patient_case`'s `try` block
raises (any step, any input), the call returns the error report — status
"error", empty remedies, "0%" confidence, empty follow-ups — and the
narrative contains the exception's message; no exception propagates. -/
theorem analyze_patient_case_error_path
    (extractStep : PyStr → Except PyStr (List PyStr))
    (searchStep : List PyStr → Except PyStr (List PyStr))
    (composeStep : PyStr → List PyStr → Except PyStr PyStr)
    (remediesStep : PyStr → Except PyStr (List PyStr))
    (followUpStep : PyStr → Except PyStr (List PyStr))
    (patientSummary e : PyStr)
    (h : analysis_pipeline extractStep searchStep composeStep remediesStep followUpStep
          patientSummary = .error e) :
    analyze_patient_case_with extractStep searchStep composeStep remediesStep followUpStep
        patientSummary =
      { status := lit "error"
        ai_analysis := lit "Error occurred during analysis: " ++ e
        recommended_remedies := []
        confidence_score := lit "0%"
        follow_up_recommendations := [] } ∧
    List.IsInfix e (analyze_patient_case_with extractStep searchStep composeStep remediesStep
        followUpStep patientSummary).ai_analysis := by
  have hres : analyze_patient_case_with extractStep searchStep composeStep remediesStep
      followUpStep patientSummary =
      { status := lit "error"
        ai_analysis := lit "Error occurred during analysis: " ++ e
        recommended_remedies := []
        confidence_score := lit "0%"
        follow_up_recommendations := [] } := by
    unfold analyze_patient_case_with
    rw [h]
  exact ⟨hres, by rw [hres]; exact ⟨lit "Error occurred during analysis: ", [], by simp⟩⟩

/-- C3 (witness): a composition step that raises "boom" yields exactly the
error report, with "boom" in the narrative. -/
theorem analyze_patient_case_error_path_witness :
    analyze_patient_case_with (fun s => .ok (extract_symptoms s))
        (fun sy => .ok (search_knowledge_base sy))
        (fun _ _ => .error (lit "boom"))
        (fun t => .ok (extract_remedies t))
        (fun t => .ok (extract_follow_up t)) (lit "x") =
      { status := lit "error"
        ai_analysis := lit "Error occurred during analysis: boom"
        recommended_remedies := []
        confidence_score := lit "0%"
        follow_up_recommendations := [] } ∧
    List.IsInfix (lit "boom")
      (analyze_patient_case_with (fun s => .ok (extract_symptoms s))
        (fun sy => .ok (search_knowledge_base sy))
        (fun _ _ => .error (lit "boom"))
        (fun t => .ok (extract_remedies t))
        (fun t => .ok (extract_follow_up t)) (lit "x")).ai_analysis :=
  analyze_patient_case_error_path (fun s => .ok (extract_symptoms s))
    (fun sy => .ok (search_knowledge_base sy))
    (fun _ _ => .error (lit "boom"))
    (fun t => .ok (extract_remedies t))
    (fun t => .ok (extract_follow_up t)) (lit "x") (lit "boom") rfl

/-- C4 (counterexample): `_search_knowledge_base` does not perform the
claimed embed-and-top-K search: on the one-chunk toy index whose single
chunk is plainly the top-1 (hence top-K) answer for the query "headache",
the source's output differs from the spec-side retriever's. -/
theorem search_knowledge_base_not_vector_search :
    search_knowledge_base [lit "headache"] ≠
      retrieveSpec toyEmbed toyIndex 4 [lit "headache"] := by
  decide

/-- C4 (amended): for a non-empty symptom list, `_search_knowledge_base`
builds the joined query string but never embeds it nor queries any index; it
returns the fixed four-entry placeholder list whose first entry names the
symptoms joined with ", ". -/
theorem search_knowledge_base_fixed_template (symptoms : List PyStr)
    (h : symptoms ≠ []) :
    search_knowledge_base symptoms =
      [lit "Found information related to: " ++ pyJoin (lit ", ") symptoms,
       lit "Based on homeopathic principles, consider constitutional remedies",
       lit "Symptom totality suggests looking at mental/emotional state",
       lit "Physical symptoms should be considered with modalities"] := by
  cases symptoms with
  | nil => exact absurd rfl h
  | cons a l => rfl

/-- C4 (witness for the amended theorem). -/
theorem search_knowledge_base_fixed_template_witness :
    search_knowledge_base [lit "headache"] =
      [lit "Found information related to: " ++ pyJoin (lit ", ") [lit "headache"],
       lit "Based on homeopathic principles, consider constitutional remedies",
       lit "Symptom totality suggests looking at mental/emotional state",
       lit "Physical symptoms should be considered with modalities"] :=
  search_knowledge_base_fixed_template [lit "headache"] (by decide)

/-- C5: `_extract_symptoms "Chronic headaches and fatigue"` yields exactly
the two lexicon terms "headache" and "fatigue" (matched case-insensitively
inside "Chronic"/"headaches"), with no duplicates. -/
theorem extract_symptoms_headache_fatigue :
    extract_symptoms (lit "Chronic headaches and fatigue") =
      [lit "headache", lit "fatigue"] ∧
    (extract_symptoms (lit "Chronic headaches and fatigue")).Nodup := by
  decide

/-- C6: `_extract_symptoms ""` is the empty symptom set, and
`_search_knowledge_base` on the empty set returns the single sentinel
"no symptoms identified" entry rather than erroring or searching. -/
theorem extract_empty_and_search_sentinel :
    extract_symptoms (lit "") = [] ∧
    search_knowledge_base [] = [lit "No specific symptoms identified for search"] := by
  decide

/-- C7: a narrative none of whose lines carries both a potency token and a
remedy name gets the fixed 3-item fallback list, and the remedy list is
never empty. -/
theorem extract_remedies_fallback (text : PyStr) :
    ((∀ l ∈ splitOnChar '\n' text, lineMatchesRemedy l = false) →
      extract_remedies text = fallbackRemedies) ∧
    extract_remedies text ≠ [] := by
  have hrem : extract_remedies text =
      (if (matchedRemedyLines text).isEmpty then fallbackRemedies
       else matchedRemedyLines text).take 5 := rfl
  constructor
  · intro h
    have hf : matchedRemedyLines text = [] := by
      unfold matchedRemedyLines
      rw [List.filter_eq_nil_iff.mpr (by intro a ha; simp [h a ha])]
      rfl
    rw [hrem, hf]
    rfl
  · rw [hrem]
    cases hm : matchedRemedyLines text with
    | nil => decide
    | cons a l =>
      show a :: List.take 4 l ≠ []
      simp

/-- C7 (witness): a remedy-free narrative produces exactly the fallback. -/
theorem extract_remedies_fallback_witness :
    extract_remedies (lit "no remedies here") = fallbackRemedies ∧
    extract_remedies (lit "no remedies here") ≠ [] :=
  ⟨(extract_remedies_fallback (lit "no remedies here")).1 (by decide),
   (extract_remedies_fallback (lit "no remedies here")).2⟩

/-- C8: `_extract_follow_up` returns the same fixed five-item checklist for
every narrative. -/
theorem extract_follow_up_constant (analysisText : PyStr) :
    extract_follow_up analysisText =
      [lit "Monitor patient response for 2-4 weeks",
       lit "Avoid antidoting substances (coffee, mint, camphor)",
       lit "Schedule follow-up consultation",
       lit "Keep symptom diary",
       lit "Report any new symptoms or changes"] := rfl

/-- C9: with zero documents in the corpus directory, a first call to
`get_homeopathic_agent` still completes: `load_knowledge_base` reports
`False` (degraded corpus), yet the caller ends in `done` with the live
instance, the initialized flag is set, and exactly one initialization pass
ran — no failure state is reached. -/
theorem get_homeopathic_agent_empty_corpus :
    runSchedule (fun _ => false) true [false, false]
        (initialSingletonState [], .start, .start) =
      ({ agentInstance := some 1, agentInitialized := true, initPasses := 1, nextId := 2,
         pdfFiles := [], loadSuccess := false }, .done 1, .start) ∧
    load_knowledge_base true [] = false := by
  decide

/-- C10: on the success path (the source's steps are total, so every call
succeeds), the report's status is "success" and its confidence score is the
constant "75%", whatever the patient text. -/
theorem analyze_patient_case_success_constants (patientSummary : PyStr) :
    (analyze_patient_case patientSummary).status = lit "success" ∧
    (analyze_patient_case patientSummary).confidence_score = lit "75%" :=
  ⟨rfl, rfl⟩
